import Mathlib

/-!
# ARCADE vendored constant tables

Shallow embedding of the two vendored headers of the repository:

* `External/kernel32/include64/cderr.h`: the common-dialog error codes, a
  sequence of object-like `#define` directives;
* `External/makeUserDLL/Include/AgtCtl_i.c`: the MIDL generated identifier
  definitions of the Microsoft Agent control, a sequence of initialised
  `const` objects of type `IID` or `CLSID`.

Each file is embedded as the list of its directives or declarations in source
order, with the literals as written there.  Looking a name up is the
resolution the preprocessor or the compiler performs on that list.
-/

namespace Arcade

set_option maxRecDepth 100000

/-! ## cderr.h -/

/-- One object-like `#define` directive: the macro name and its replacement, which is either
empty (the include guard) or an integer literal. -/
structure Define where
  name : String
  body : Option Nat
  deriving DecidableEq, Repr

/-- The `#define` directives of `cderr.h`, in source order (lines 2 and 4 to 40). -/
def cderr_h : List Define :=
  [ ⟨"_INC_CDERR", none⟩,
    ⟨"CDERR_DIALOGFAILURE", some 0xffff⟩,
    ⟨"CDERR_GENERALCODES", some 0⟩,
    ⟨"CDERR_STRUCTSIZE", some 1⟩,
    ⟨"CDERR_INITIALIZATION", some 2⟩,
    ⟨"CDERR_NOTEMPLATE", some 3⟩,
    ⟨"CDERR_NOHINSTANCE", some 4⟩,
    ⟨"CDERR_LOADSTRFAILURE", some 5⟩,
    ⟨"CDERR_FINDRESFAILURE", some 6⟩,
    ⟨"CDERR_LOADRESFAILURE", some 7⟩,
    ⟨"CDERR_LOCKRESFAILURE", some 8⟩,
    ⟨"CDERR_MEMALLOCFAILURE", some 9⟩,
    ⟨"CDERR_MEMLOCKFAILURE", some 10⟩,
    ⟨"CDERR_NOHOOK", some 11⟩,
    ⟨"CDERR_REGISTERMSGFAIL", some 12⟩,
    ⟨"PDERR_PRINTERCODES", some 0x1000⟩,
    ⟨"PDERR_SETUPFAILURE", some 0x1001⟩,
    ⟨"PDERR_PARSEFAILURE", some 0x1002⟩,
    ⟨"PDERR_RETDEFFAILURE", some 0x1003⟩,
    ⟨"PDERR_LOADDRVFAILURE", some 0x1004⟩,
    ⟨"PDERR_GETDEVMODEFAIL", some 0x1005⟩,
    ⟨"PDERR_INITFAILURE", some 0x1006⟩,
    ⟨"PDERR_NODEVICES", some 0x1007⟩,
    ⟨"PDERR_NODEFAULTPRN", some 0x1008⟩,
    ⟨"PDERR_DNDMMISMATCH", some 0x1009⟩,
    ⟨"PDERR_CREATEICFAILURE", some 0x100a⟩,
    ⟨"PDERR_PRINTERNOTFOUND", some 0x100b⟩,
    ⟨"PDERR_DEFAULTDIFFERENT", some 0x100c⟩,
    ⟨"CFERR_CHOOSEFONTCODES", some 0x2000⟩,
    ⟨"CFERR_NOFONTS", some 0x2001⟩,
    ⟨"CFERR_MAXLESSTHANMIN", some 0x2002⟩,
    ⟨"FNERR_FILENAMECODES", some 0x3000⟩,
    ⟨"FNERR_SUBCLASSFAILURE", some 0x3001⟩,
    ⟨"FNERR_INVALIDFILENAME", some 0x3002⟩,
    ⟨"FNERR_BUFFERTOOSMALL", some 0x3003⟩,
    ⟨"FRERR_FINDREPLACECODES", some 0x4000⟩,
    ⟨"FRERR_BUFFERLENGTHZERO", some 0x4001⟩,
    ⟨"CCERR_CHOOSECOLORCODES", some 0x5000⟩ ]

/-- One row of the error-code table: a macro name with the value it expands to. -/
structure ErrorCode where
  name : String
  value : Nat
  deriving DecidableEq, Repr

/-- The error-code table: the directives of `cderr.h` that have an integer replacement, in
source order.  The include guard `_INC_CDERR` expands to nothing and is no error code. -/
def errorCodes : List ErrorCode :=
  cderr_h.filterMap fun d => d.body.map fun v => ⟨d.name, v⟩

/-- Expansion of a macro name: the value of the first row carrying that name. -/
def lookupCode (n : String) : Option Nat :=
  (errorCodes.find? fun e => e.name = n).map ErrorCode.value

/-- Whether the characters of `p` start the name `n`. -/
def startsWith (p n : String) : Bool :=
  p.toList.isPrefixOf n.toList

/-- The six groups of common-dialog error codes. -/
inductive Category where
  | general
  | printer
  | font
  | fileName
  | findReplace
  | color
  deriving DecidableEq, Repr

/-- Index of a category: general 0, printer 1, font 2, file name 3, find/replace 4, color 5. -/
def Category.index : Category → Nat
  | .general => 0
  | .printer => 1
  | .font => 2
  | .fileName => 3
  | .findReplace => 4
  | .color => 5

/-- The macro-name prefix that marks a category in `cderr.h`. -/
def Category.tag : Category → String
  | .general => "CDERR_"
  | .printer => "PDERR_"
  | .font => "CFERR_"
  | .fileName => "FNERR_"
  | .findReplace => "FRERR_"
  | .color => "CCERR_"

/-- All categories, by index. -/
def Category.all : List Category :=
  [.general, .printer, .font, .fileName, .findReplace, .color]

/-- The category a macro name belongs to, read off its prefix. -/
def categoryOf (n : String) : Option Category :=
  Category.all.find? fun k => startsWith k.tag n

/-- The rows of the error-code table that belong to category `k`, in source order. -/
def codesOf (k : Category) : List ErrorCode :=
  errorCodes.filter fun e => categoryOf e.name = some k

/-! ## AgtCtl_i.c -/

/-- The two type names the file declares: `IID`, the name of `struct _IID`, and `CLSID`,
introduced by `typedef IID CLSID;`. -/
inductive TypeName where
  | IID
  | CLSID
  deriving DecidableEq, Repr

/-- The type a type name stands for once typedefs are expanded: both name `struct _IID`,
written here by its first name `IID`. -/
def TypeName.expand : TypeName → TypeName
  | .IID => .IID
  | .CLSID => .IID

/-- An object of `struct _IID`: `unsigned long x` (32 bits under the Win32 settings the file
was generated for), `unsigned short s1`, `unsigned short s2` and `unsigned char c[8]`. -/
structure IID where
  x : Nat
  s1 : Nat
  s2 : Nat
  c : List Nat
  deriving DecidableEq, Repr

/-- The class-identifier type of `typedef IID CLSID;`. -/
abbrev CLSID : Type := IID

/-- A brace initialiser as written in the file: three integer literals followed by a nested
brace list of integer literals. -/
structure Initializer where
  first : Nat
  second : Nat
  third : Nat
  fourth : List Nat
  deriving DecidableEq, Repr

/-- One definition `const T name = init;`. -/
structure Decl where
  ty : TypeName
  name : String
  init : Initializer
  deriving DecidableEq, Repr

/-- The object an initialiser produces.  Each literal is converted to the unsigned type of its
field, that is reduced modulo `2 ^ width`; a nested list shorter than the array is filled up with
zeros, and one with more than 8 elements is rejected. -/
def store (i : Initializer) : Option IID :=
  if i.fourth.length ≤ 8 then
    some
      { x := i.first % 2 ^ 32
        s1 := i.second % 2 ^ 16
        s2 := i.third % 2 ^ 16
        c := (List.range 8).map fun j => i.fourth.getD j 0 % 2 ^ 8 }
  else
    none

/-- The definitions of `AgtCtl_i.c`, in source order (lines 47 to 110). -/
def AgtCtl_i : List Decl :=
  [ ⟨.IID, "IID_IAgentCtlRequest", ⟨0x1DAB85C3, 0x803A, 0x11D0, [0xAC, 0x63, 0x00, 0xC0, 0x4F, 0xD9, 0x75, 0x75]⟩⟩,
    ⟨.IID, "IID_IAgentCtlUserInput", ⟨0xC4ABF875, 0x8100, 0x11D0, [0xAC, 0x63, 0x00, 0xC0, 0x4F, 0xD9, 0x75, 0x75]⟩⟩,
    ⟨.IID, "IID_IAgentCtlBalloon", ⟨0xF5BE8BD3, 0x7DE6, 0x11D0, [0x91, 0xFE, 0x00, 0xC0, 0x4F, 0xD7, 0x01, 0xA5]⟩⟩,
    ⟨.IID, "IID_IAgentCtlBalloonEx", ⟨0x822DB1C0, 0x8879, 0x11d1, [0x9E, 0xC6, 0x00, 0xC0, 0x4F, 0xD7, 0x08, 0x1F]⟩⟩,
    ⟨.IID, "IID_IAgentCtlCommand", ⟨0xF5BE8BE3, 0x7DE6, 0x11D0, [0x91, 0xFE, 0x00, 0xC0, 0x4F, 0xD7, 0x01, 0xA5]⟩⟩,
    ⟨.IID, "IID_IAgentCtlCommandEx", ⟨0xB0913410, 0x3B44, 0x11d1, [0xAC, 0xBA, 0x00, 0xC0, 0x4F, 0xD9, 0x75, 0x75]⟩⟩,
    ⟨.IID, "IID_IAgentCtlCommands", ⟨0xF5BE8BE1, 0x7DE6, 0x11D0, [0x91, 0xFE, 0x00, 0xC0, 0x4F, 0xD7, 0x01, 0xA5]⟩⟩,
    ⟨.IID, "IID_IAgentCtlCommandsEx", ⟨0x6BA90C01, 0x3910, 0x11d1, [0xAC, 0xB3, 0x00, 0xC0, 0x4F, 0xD9, 0x75, 0x75]⟩⟩,
    ⟨.IID, "IID_IAgentCtlCharacter", ⟨0xF5BE8BD9, 0x7DE6, 0x11D0, [0x91, 0xFE, 0x00, 0xC0, 0x4F, 0xD7, 0x01, 0xA5]⟩⟩,
    ⟨.IID, "IID_IAgentCtlAnimationNames", ⟨0x8B77181C, 0xD3EF, 0x11d1, [0x85, 0x00, 0x00, 0xC0, 0x4F, 0xA3, 0x4A, 0x14]⟩⟩,
    ⟨.IID, "IID_IAgentCtlCharacterEx", ⟨0xDE8EF600, 0x2F82, 0x11d1, [0xAC, 0xAC, 0x00, 0xC0, 0x4F, 0xD9, 0x75, 0x75]⟩⟩,
    ⟨.IID, "IID_IAgentCtlCharacters", ⟨0xF5BE8BE8, 0x7DE6, 0x11D0, [0x91, 0xFE, 0x00, 0xC0, 0x4F, 0xD7, 0x01, 0xA5]⟩⟩,
    ⟨.IID, "IID_IAgentCtlAudioObject", ⟨0xF5BE8BDB, 0x7DE6, 0x11D0, [0x91, 0xFE, 0x00, 0xC0, 0x4F, 0xD7, 0x01, 0xA5]⟩⟩,
    ⟨.IID, "IID_IAgentCtlAudioObjectEx", ⟨0xF5BE8BF0, 0x7DE6, 0x11D0, [0x91, 0xFE, 0x00, 0xC0, 0x4F, 0xD7, 0x01, 0xA5]⟩⟩,
    ⟨.IID, "IID_IAgentCtlSpeechInput", ⟨0xF5BE8BDD, 0x7DE6, 0x11D0, [0x91, 0xFE, 0x00, 0xC0, 0x4F, 0xD7, 0x01, 0xA5]⟩⟩,
    ⟨.IID, "IID_IAgentCtlPropertySheet", ⟨0xF5BE8BDF, 0x7DE6, 0x11D0, [0x91, 0xFE, 0x00, 0xC0, 0x4F, 0xD7, 0x01, 0xA5]⟩⟩,
    ⟨.IID, "IID_IAgentCtlCommandsWindow", ⟨0x6D0ECB27, 0x9968, 0x11D0, [0xAC, 0x6E, 0x00, 0xC0, 0x4F, 0xD9, 0x75, 0x75]⟩⟩,
    ⟨.IID, "IID_IAgentCtl", ⟨0xF5BE8BD1, 0x7DE6, 0x11D0, [0x91, 0xFE, 0x00, 0xC0, 0x4F, 0xD7, 0x01, 0xA5]⟩⟩,
    ⟨.IID, "IID_IAgentCtlEx", ⟨0x8563FF20, 0x8ECC, 0x11d1, [0xB9, 0xB4, 0x00, 0xC0, 0x4F, 0xD9, 0x75, 0x75]⟩⟩,
    ⟨.IID, "LIBID_AgentObjects", ⟨0xF5BE8BC2, 0x7DE6, 0x11D0, [0x91, 0xFE, 0x00, 0xC0, 0x4F, 0xD7, 0x01, 0xA5]⟩⟩,
    ⟨.IID, "DIID__AgentEvents", ⟨0xF5BE8BD4, 0x7DE6, 0x11D0, [0x91, 0xFE, 0x00, 0xC0, 0x4F, 0xD7, 0x01, 0xA5]⟩⟩,
    ⟨.CLSID, "CLSID_Agent", ⟨0xD45FD31B, 0x5C6E, 0x11D1, [0x9E, 0xC1, 0x00, 0xC0, 0x4F, 0xD7, 0x08, 0x1F]⟩⟩ ]

/-- The value named `n`: the object stored by the first definition of that name. -/
def lookupIID (n : String) : Option IID :=
  (AgtCtl_i.find? fun d => d.name = n).bind fun d => store d.init

/-- The names defined in `AgtCtl_i.c`, in source order. -/
def identifierNames : List String :=
  AgtCtl_i.map Decl.name

/-- The uses an identifier is meant for. -/
inductive Role where
  | interface
  | library
  | classObject
  deriving DecidableEq, Repr

/-- The role of an identifier, read off the prefix of its name: `IID_` and `DIID_` mark
interfaces, `LIBID_` the type library and `CLSID_` the class. -/
def roleOf (n : String) : Option Role :=
  if startsWith "CLSID_" n then some .classObject
  else if startsWith "LIBID_" n then some .library
  else if startsWith "IID_" n || startsWith "DIID_" n then some .interface
  else none

/-- The value range the spec assigns to category `k`: from `k.index * 0x1000` up to, but not
including, `k.index * 0x1000 + 0xFFF`. -/
def inCategoryRange (k : Category) (v : Nat) : Prop :=
  k.index * 0x1000 ≤ v ∧ v < k.index * 0x1000 + 0xFFF

instance (k : Category) (v : Nat) : Decidable (inCategoryRange k v) :=
  inferInstanceAs (Decidable (_ ∧ _))

/-! ## Properties of the error-code table -/

theorem category_cases (k : Category) : k ∈ Category.all := by
  cases k <;> decide

theorem range_iff_away_from_dialogfailure :
    ∀ e ∈ errorCodes, e.name ≠ "CDERR_DIALOGFAILURE" →
      (categoryOf e.name).isSome = true ∧
      ∀ k ∈ Category.all, (categoryOf e.name = some k ↔ inCategoryRange k e.value) := by
  decide

theorem dialogfailure_row :
    ∀ e ∈ errorCodes, e.name = "CDERR_DIALOGFAILURE" →
      e.value = 0xFFFF ∧ categoryOf e.name = some Category.general ∧
      ∀ k ∈ Category.all, ¬ inCategoryRange k e.value := by
  decide

theorem value_determines_row :
    ∀ e ∈ errorCodes, ∀ f ∈ errorCodes,
      (e.value = f.value → e.name = f.name) ∧ (e.name = f.name → e = f) ∧
      e.value ≤ 0xFFFF ∧ (e.value = 0xFFFF ↔ e.name = "CDERR_DIALOGFAILURE") ∧
      lookupCode e.name = some e.value := by
  decide

/-- C1: every one of the 37 macro names of `cderr.h`, taken in source order, expands to the
literal of its `#define`: `CDERR_DIALOGFAILURE` to 0xFFFF, the other thirteen `CDERR_` names to
0, 1, ..., 12, the thirteen `PDERR_` names to 0x1000, ..., 0x100C, the `CFERR_` names to 0x2000,
..., 0x2002, the `FNERR_` names to 0x3000, ..., 0x3003, the `FRERR_` names to 0x4000 and 0x4001,
and `CCERR_CHOOSECOLORCODES` to 0x5000. -/
theorem C1_lookup_returns_define_literal :
    (errorCodes.map fun e => (e.name, lookupCode e.name)) =
    [ ("CDERR_DIALOGFAILURE", some 0xFFFF),
      ("CDERR_GENERALCODES", some 0),
      ("CDERR_STRUCTSIZE", some 1),
      ("CDERR_INITIALIZATION", some 2),
      ("CDERR_NOTEMPLATE", some 3),
      ("CDERR_NOHINSTANCE", some 4),
      ("CDERR_LOADSTRFAILURE", some 5),
      ("CDERR_FINDRESFAILURE", some 6),
      ("CDERR_LOADRESFAILURE", some 7),
      ("CDERR_LOCKRESFAILURE", some 8),
      ("CDERR_MEMALLOCFAILURE", some 9),
      ("CDERR_MEMLOCKFAILURE", some 10),
      ("CDERR_NOHOOK", some 11),
      ("CDERR_REGISTERMSGFAIL", some 12),
      ("PDERR_PRINTERCODES", some 0x1000),
      ("PDERR_SETUPFAILURE", some 0x1001),
      ("PDERR_PARSEFAILURE", some 0x1002),
      ("PDERR_RETDEFFAILURE", some 0x1003),
      ("PDERR_LOADDRVFAILURE", some 0x1004),
      ("PDERR_GETDEVMODEFAIL", some 0x1005),
      ("PDERR_INITFAILURE", some 0x1006),
      ("PDERR_NODEVICES", some 0x1007),
      ("PDERR_NODEFAULTPRN", some 0x1008),
      ("PDERR_DNDMMISMATCH", some 0x1009),
      ("PDERR_CREATEICFAILURE", some 0x100A),
      ("PDERR_PRINTERNOTFOUND", some 0x100B),
      ("PDERR_DEFAULTDIFFERENT", some 0x100C),
      ("CFERR_CHOOSEFONTCODES", some 0x2000),
      ("CFERR_NOFONTS", some 0x2001),
      ("CFERR_MAXLESSTHANMIN", some 0x2002),
      ("FNERR_FILENAMECODES", some 0x3000),
      ("FNERR_SUBCLASSFAILURE", some 0x3001),
      ("FNERR_INVALIDFILENAME", some 0x3002),
      ("FNERR_BUFFERTOOSMALL", some 0x3003),
      ("FRERR_FINDREPLACECODES", some 0x4000),
      ("FRERR_BUFFERLENGTHZERO", some 0x4001),
      ("CCERR_CHOOSECOLORCODES", some 0x5000) ] := by
  decide

/-- C4, as stated, fails: `CDERR_DIALOGFAILURE` is a row of the table, it is a general code, and
its value 0xFFFF is outside the general range, so membership in a category is not equivalent to
lying in that category's range for every code. -/
theorem C4_dialogfailure_outside_general_range :
    (⟨"CDERR_DIALOGFAILURE", 0xFFFF⟩ : ErrorCode) ∈ errorCodes ∧
    categoryOf "CDERR_DIALOGFAILURE" = some Category.general ∧
    ¬ inCategoryRange Category.general 0xFFFF ∧
    ¬ ∀ e ∈ errorCodes, ∀ k : Category,
        (categoryOf e.name = some k ↔ inCategoryRange k e.value) := by
  refine ⟨by decide, by decide, by decide, fun h => ?_⟩
  have h1 := (h ⟨"CDERR_DIALOGFAILURE", 0xFFFF⟩ (by decide) Category.general).1 (by decide)
  exact absurd h1 (by decide)

/-- C4, amended: for every error code other than `CDERR_DIALOGFAILURE` and every category `k`,
the code belongs to `k` exactly when `k.index * 0x1000 ≤ v < k.index * 0x1000 + 0xFFF`, so it
lies in the range of exactly one category, its own; `CDERR_DIALOGFAILURE` has the value 0xFFFF,
is a general code and lies in the range of no category. -/
theorem C4_ranges_partition_except_dialogfailure (e : ErrorCode) (he : e ∈ errorCodes) :
    (e.name ≠ "CDERR_DIALOGFAILURE" →
      (∀ k : Category, categoryOf e.name = some k ↔ inCategoryRange k e.value) ∧
      ∃! k : Category, inCategoryRange k e.value) ∧
    (e.name = "CDERR_DIALOGFAILURE" →
      e.value = 0xFFFF ∧ categoryOf e.name = some Category.general ∧
      ∀ k : Category, ¬ inCategoryRange k e.value) := by
  constructor
  · intro hne
    obtain ⟨hsome, hiff⟩ := range_iff_away_from_dialogfailure e he hne
    have hall : ∀ k : Category, categoryOf e.name = some k ↔ inCategoryRange k e.value :=
      fun k => hiff k (category_cases k)
    refine ⟨hall, ?_⟩
    obtain ⟨k, hk⟩ := Option.isSome_iff_exists.mp hsome
    refine ⟨k, (hall k).1 hk, fun j hj => ?_⟩
    have hj2 := (hall j).2 hj
    rw [hk] at hj2
    exact (Option.some.inj hj2).symm
  · intro heq
    obtain ⟨hv, hc, hno⟩ := dialogfailure_row e he heq
    exact ⟨hv, hc, fun k => hno k (category_cases k)⟩

/-- C4, amended, at `PDERR_NODEVICES`: it is a printer code exactly because 0x1007 lies in the
printer range. -/
theorem C4_ranges_partition_witness :
    (⟨"PDERR_NODEVICES", 0x1007⟩ : ErrorCode) ∈ errorCodes ∧
    (categoryOf "PDERR_NODEVICES" = some Category.printer ↔
      inCategoryRange Category.printer 0x1007) :=
  ⟨by decide,
    ((C4_ranges_partition_except_dialogfailure ⟨"PDERR_NODEVICES", 0x1007⟩ (by decide)).1
      (by decide)).1 Category.printer⟩

/-- C6: the error-code table has 37 rows with pairwise distinct names; 14 are general, 13
printer, 3 font, 4 file-name, 2 find/replace and 1 color codes, and the rows of each category
stand in the source in the order the spec lists them. -/
theorem C6_names_enumerated_by_category :
    errorCodes.length = 37 ∧
    (errorCodes.map ErrorCode.name).Nodup ∧
    (Category.all.map fun k => (codesOf k).length) = [14, 13, 3, 4, 2, 1] ∧
    (codesOf Category.general).map ErrorCode.name =
      ["CDERR_DIALOGFAILURE", "CDERR_GENERALCODES", "CDERR_STRUCTSIZE", "CDERR_INITIALIZATION",
        "CDERR_NOTEMPLATE", "CDERR_NOHINSTANCE", "CDERR_LOADSTRFAILURE", "CDERR_FINDRESFAILURE",
        "CDERR_LOADRESFAILURE", "CDERR_LOCKRESFAILURE", "CDERR_MEMALLOCFAILURE",
        "CDERR_MEMLOCKFAILURE", "CDERR_NOHOOK", "CDERR_REGISTERMSGFAIL"] ∧
    (codesOf Category.printer).map ErrorCode.name =
      ["PDERR_PRINTERCODES", "PDERR_SETUPFAILURE", "PDERR_PARSEFAILURE", "PDERR_RETDEFFAILURE",
        "PDERR_LOADDRVFAILURE", "PDERR_GETDEVMODEFAIL", "PDERR_INITFAILURE", "PDERR_NODEVICES",
        "PDERR_NODEFAULTPRN", "PDERR_DNDMMISMATCH", "PDERR_CREATEICFAILURE",
        "PDERR_PRINTERNOTFOUND", "PDERR_DEFAULTDIFFERENT"] ∧
    (codesOf Category.font).map ErrorCode.name =
      ["CFERR_CHOOSEFONTCODES", "CFERR_NOFONTS", "CFERR_MAXLESSTHANMIN"] ∧
    (codesOf Category.fileName).map ErrorCode.name =
      ["FNERR_FILENAMECODES", "FNERR_SUBCLASSFAILURE", "FNERR_INVALIDFILENAME",
        "FNERR_BUFFERTOOSMALL"] ∧
    (codesOf Category.findReplace).map ErrorCode.name =
      ["FRERR_FINDREPLACECODES", "FRERR_BUFFERLENGTHZERO"] ∧
    (codesOf Category.color).map ErrorCode.name =
      ["CCERR_CHOOSECOLORCODES"] := by
  decide

/-- C9: the error-code table is injective and 16-bit: two rows with the same value are the same
row (so the 37 values are pairwise distinct, also across categories, and a value determines its
name), every value is at most 0xFFFF, and 0xFFFF is the value of `CDERR_DIALOGFAILURE` only. -/
theorem C9_values_distinct_and_16bit (e f : ErrorCode) (he : e ∈ errorCodes)
    (hf : f ∈ errorCodes) :
    (e.value = f.value → e.name = f.name ∧ e = f) ∧
    (e.name ≠ f.name → e.value ≠ f.value) ∧
    e.value ≤ 0xFFFF ∧
    (e.value = 0xFFFF ↔ e.name = "CDERR_DIALOGFAILURE") ∧
    lookupCode "CDERR_DIALOGFAILURE" = some 0xFFFF ∧
    errorCodes.length = 37 := by
  obtain ⟨h1, h2, h3, h4, _⟩ := value_determines_row e he f hf
  exact ⟨fun h => ⟨h1 h, h2 (h1 h)⟩, fun hn hv => hn (h1 hv), h3, h4, by decide, by decide⟩

/-- C9 at the rows of `CDERR_DIALOGFAILURE` and `CCERR_CHOOSECOLORCODES`: their values differ. -/
theorem C9_values_distinct_witness :
    (⟨"CDERR_DIALOGFAILURE", 0xFFFF⟩ : ErrorCode) ∈ errorCodes ∧
    (⟨"CCERR_CHOOSECOLORCODES", 0x5000⟩ : ErrorCode) ∈ errorCodes ∧
    (⟨"CDERR_DIALOGFAILURE", 0xFFFF⟩ : ErrorCode).value ≠
      (⟨"CCERR_CHOOSECOLORCODES", 0x5000⟩ : ErrorCode).value :=
  ⟨by decide, by decide,
    (C9_values_distinct_and_16bit ⟨"CDERR_DIALOGFAILURE", 0xFFFF⟩ ⟨"CCERR_CHOOSECOLORCODES", 0x5000⟩
      (by decide) (by decide)).2.1 (by decide)⟩

/-! ## Properties of the identifier table -/

theorem lookupIID_decl :
    ∀ d ∈ AgtCtl_i,
      lookupIID d.name = some ⟨d.init.first, d.init.second, d.init.third, d.init.fourth⟩ := by
  decide

theorem first_literal_distinct :
    ∀ d ∈ AgtCtl_i, ∀ e ∈ AgtCtl_i, d.name ≠ e.name → d.init.first ≠ e.init.first := by
  decide

theorem name_determines_decl :
    ∀ d ∈ AgtCtl_i, ∀ e ∈ AgtCtl_i, d.name = e.name → d = e := by
  decide

theorem literals_in_range :
    ∀ d ∈ AgtCtl_i,
      d.init.first < 2 ^ 32 ∧ d.init.second < 2 ^ 16 ∧ d.init.third < 2 ^ 16 ∧
      d.init.fourth.length = 8 ∧ (∀ b ∈ d.init.fourth, b < 2 ^ 8) ∧
      store d.init = some ⟨d.init.first, d.init.second, d.init.third, d.init.fourth⟩ := by
  decide

theorem roles_by_name :
    ∀ d ∈ AgtCtl_i,
      (d.name ≠ "CLSID_Agent" → d.name ≠ "LIBID_AgentObjects" →
        (startsWith "IID_" d.name = true ∨ startsWith "DIID_" d.name = true) ∧
        roleOf d.name = some Role.interface ∧ d.ty = TypeName.IID) ∧
      d.ty.expand = TypeName.IID := by
  decide

/-- C2: for every identifier defined in `AgtCtl_i.c`, looking its name up returns the object
whose fields `x`, `s1`, `s2`, `c` (data1 to data4) are the literals of its initialiser; for
`CLSID_Agent` these are 0xD45FD31B, 0x5C6E, 0x11D1 and the bytes
0x9E, 0xC1, 0x00, 0xC0, 0x4F, 0xD7, 0x08, 0x1F. -/
theorem C2_lookup_returns_initialiser (d : Decl) (hd : d ∈ AgtCtl_i) :
    lookupIID d.name = some ⟨d.init.first, d.init.second, d.init.third, d.init.fourth⟩ ∧
    lookupIID "CLSID_Agent" =
      some ⟨0xD45FD31B, 0x5C6E, 0x11D1, [0x9E, 0xC1, 0x00, 0xC0, 0x4F, 0xD7, 0x08, 0x1F]⟩ :=
  ⟨lookupIID_decl d hd, by decide⟩

/-- C2 at the definition of `IID_IAgentCtlRequest`. -/
theorem C2_lookup_witness :
    lookupIID "IID_IAgentCtlRequest" =
      some ⟨0x1DAB85C3, 0x803A, 0x11D0, [0xAC, 0x63, 0x00, 0xC0, 0x4F, 0xD9, 0x75, 0x75]⟩ :=
  (C2_lookup_returns_initialiser
    ⟨TypeName.IID, "IID_IAgentCtlRequest",
      ⟨0x1DAB85C3, 0x803A, 0x11D0, [0xAC, 0x63, 0x00, 0xC0, 0x4F, 0xD9, 0x75, 0x75]⟩⟩
    (by decide)).1

/-- C3: the identifier table is injective: two distinct names defined in `AgtCtl_i.c` both have
a value, and the two values are not equal field by field over `x`, `s1`, `s2`, `c`. -/
theorem C3_identifier_values_distinct (n m : String) (hn : n ∈ identifierNames)
    (hm : m ∈ identifierNames) (hne : n ≠ m) :
    ∃ v w : IID, lookupIID n = some v ∧ lookupIID m = some w ∧
      ¬ (v.x = w.x ∧ v.s1 = w.s1 ∧ v.s2 = w.s2 ∧ v.c = w.c) := by
  obtain ⟨d, hd, rfl⟩ := List.mem_map.mp hn
  obtain ⟨e, he, rfl⟩ := List.mem_map.mp hm
  exact ⟨_, _, lookupIID_decl d hd, lookupIID_decl e he,
    fun h => first_literal_distinct d hd e he hne h.1⟩

/-- C3 at `IID_IAgentCtlBalloon` and `IID_IAgentCtlCommand`, which differ in `x` only. -/
theorem C3_identifier_values_distinct_witness :
    ∃ v w : IID, lookupIID "IID_IAgentCtlBalloon" = some v ∧
      lookupIID "IID_IAgentCtlCommand" = some w ∧
      ¬ (v.x = w.x ∧ v.s1 = w.s1 ∧ v.s2 = w.s2 ∧ v.c = w.c) :=
  C3_identifier_values_distinct "IID_IAgentCtlBalloon" "IID_IAgentCtlCommand"
    (by decide) (by decide) (by decide)

/-- C5, as stated, fails: `AgtCtl_i.c` does not define 23 identifiers. -/
theorem C5_not_23_identifiers :
    ¬ (AgtCtl_i.length = 23) ∧ ¬ (identifierNames.length = 23) := by
  decide

/-- C5, amended: `AgtCtl_i.c` defines exactly 22 identifiers, with pairwise distinct names: 20
interface identifiers, 1 library identifier and 1 class identifier. -/
theorem C5_exactly_22_identifiers :
    AgtCtl_i.length = 22 ∧ identifierNames.length = 22 ∧ identifierNames.Nodup ∧
    (AgtCtl_i.filter fun d => roleOf d.name = some Role.interface).length = 20 ∧
    (AgtCtl_i.filter fun d => roleOf d.name = some Role.library).length = 1 ∧
    (AgtCtl_i.filter fun d => roleOf d.name = some Role.classObject).length = 1 := by
  decide

/-- C7: every identifier defined in `AgtCtl_i.c` is a well-formed 128-bit value: its first literal
is below 2^32, its second and third are below 2^16, its fourth is a list of exactly 8 literals
each below 2^8, and so storing the initialiser in the structure truncates nothing. -/
theorem C7_initialisers_fit_fields (d : Decl) (hd : d ∈ AgtCtl_i) :
    d.init.first < 2 ^ 32 ∧ d.init.second < 2 ^ 16 ∧ d.init.third < 2 ^ 16 ∧
    d.init.fourth.length = 8 ∧ (∀ b ∈ d.init.fourth, b < 2 ^ 8) ∧
    store d.init = some ⟨d.init.first, d.init.second, d.init.third, d.init.fourth⟩ :=
  literals_in_range d hd

/-- C7 at the definition of `CLSID_Agent`: its first literal is below 2^32. -/
theorem C7_initialisers_fit_witness :
    (0xD45FD31B : Nat) < 2 ^ 32 ∧
    store ⟨0xD45FD31B, 0x5C6E, 0x11D1, [0x9E, 0xC1, 0x00, 0xC0, 0x4F, 0xD7, 0x08, 0x1F]⟩ =
      some ⟨0xD45FD31B, 0x5C6E, 0x11D1, [0x9E, 0xC1, 0x00, 0xC0, 0x4F, 0xD7, 0x08, 0x1F]⟩ :=
  have h := C7_initialisers_fit_fields
    ⟨TypeName.CLSID, "CLSID_Agent",
      ⟨0xD45FD31B, 0x5C6E, 0x11D1, [0x9E, 0xC1, 0x00, 0xC0, 0x4F, 0xD7, 0x08, 0x1F]⟩⟩
    (by decide)
  ⟨h.1, h.2.2.2.2.2⟩

/-- C8: among the definitions of `AgtCtl_i.c`, `CLSID_Agent` is the only name that starts with
`CLSID_` and the only one declared with type `CLSID`, `LIBID_AgentObjects` is the only name that
starts with `LIBID_`, every other name starts with `IID_` or `DIID_`, is an interface identifier
and is declared with type `IID`; and every definition has the same structure type, `CLSID` being
an alias of `IID`. -/
theorem C8_one_class_one_library_rest_interfaces (d : Decl) (hd : d ∈ AgtCtl_i) :
    ((AgtCtl_i.filter fun e => startsWith "CLSID_" e.name).map Decl.name = ["CLSID_Agent"]) ∧
    ((AgtCtl_i.filter fun e => e.ty = TypeName.CLSID).map Decl.name = ["CLSID_Agent"]) ∧
    ((AgtCtl_i.filter fun e => roleOf e.name = some Role.classObject).map Decl.name
      = ["CLSID_Agent"]) ∧
    ((AgtCtl_i.filter fun e => startsWith "LIBID_" e.name).map Decl.name
      = ["LIBID_AgentObjects"]) ∧
    ((AgtCtl_i.filter fun e => roleOf e.name = some Role.library).map Decl.name
      = ["LIBID_AgentObjects"]) ∧
    (d.name ≠ "CLSID_Agent" → d.name ≠ "LIBID_AgentObjects" →
      (startsWith "IID_" d.name = true ∨ startsWith "DIID_" d.name = true) ∧
      roleOf d.name = some Role.interface ∧ d.ty = TypeName.IID) ∧
    d.ty.expand = TypeName.IID ∧ TypeName.CLSID.expand = TypeName.IID.expand ∧ CLSID = IID := by
  obtain ⟨h1, h2⟩ := roles_by_name d hd
  exact ⟨by decide, by decide, by decide, by decide, by decide, h1, h2, rfl, rfl⟩

/-- C8 at the definition of `DIID__AgentEvents`: it is an interface identifier. -/
theorem C8_rest_interfaces_witness :
    roleOf "DIID__AgentEvents" = some Role.interface :=
  ((C8_one_class_one_library_rest_interfaces
    ⟨TypeName.IID, "DIID__AgentEvents",
      ⟨0xF5BE8BD4, 0x7DE6, 0x11D0, [0x91, 0xFE, 0x00, 0xC0, 0x4F, 0xD7, 0x01, 0xA5]⟩⟩
    (by decide)).2.2.2.2.2.1 (by decide) (by decide)).2.1

/-- C10: the field `x` (data1) alone identifies an identifier of `AgtCtl_i.c`: two definitions
with distinct names have distinct `x`, so their values are equal exactly when their `x` fields
are equal, although `IID_IAgentCtlBalloon` and `IID_IAgentCtlCommand`, like 12 of the
identifiers in all, agree on `s1`, `s2` and all 8 bytes of `c`. -/
theorem C10_first_field_identifies (d e : Decl) (hd : d ∈ AgtCtl_i) (he : e ∈ AgtCtl_i) :
    (∃ v w : IID, lookupIID d.name = some v ∧ lookupIID e.name = some w ∧
      (d.name ≠ e.name → v.x ≠ w.x) ∧ (v = w ↔ v.x = w.x)) ∧
    (∃ b c : IID, lookupIID "IID_IAgentCtlBalloon" = some b ∧
      lookupIID "IID_IAgentCtlCommand" = some c ∧
      b.s1 = c.s1 ∧ b.s2 = c.s2 ∧ b.c = c.c ∧ b.c.length = 8 ∧ b.x ≠ c.x) ∧
    (AgtCtl_i.filter fun a =>
      (lookupIID a.name).map (fun v => (v.s1, v.s2, v.c)) =
        some (0x7DE6, 0x11D0, [0x91, 0xFE, 0x00, 0xC0, 0x4F, 0xD7, 0x01, 0xA5])).length = 12 := by
  refine ⟨⟨_, _, lookupIID_decl d hd, lookupIID_decl e he,
    first_literal_distinct d hd e he, ⟨fun h => congrArg IID.x h, fun h => ?_⟩⟩,
    ⟨⟨0xF5BE8BD3, 0x7DE6, 0x11D0, [0x91, 0xFE, 0x00, 0xC0, 0x4F, 0xD7, 0x01, 0xA5]⟩,
      ⟨0xF5BE8BE3, 0x7DE6, 0x11D0, [0x91, 0xFE, 0x00, 0xC0, 0x4F, 0xD7, 0x01, 0xA5]⟩,
      by decide, by decide, rfl, rfl, rfl, rfl, by decide⟩,
    by decide⟩
  have hname : d.name = e.name := by
    by_contra hne
    exact first_literal_distinct d hd e he hne h
  rw [name_determines_decl d hd e he hname]

/-- C10 at the definitions of `LIBID_AgentObjects` and `CLSID_Agent`: their `x` fields differ. -/
theorem C10_first_field_witness :
    ∃ v w : IID, lookupIID "LIBID_AgentObjects" = some v ∧ lookupIID "CLSID_Agent" = some w ∧
      v.x ≠ w.x :=
  let ⟨v, w, hv, hw, hx, _⟩ := (C10_first_field_identifies
    ⟨TypeName.IID, "LIBID_AgentObjects",
      ⟨0xF5BE8BC2, 0x7DE6, 0x11D0, [0x91, 0xFE, 0x00, 0xC0, 0x4F, 0xD7, 0x01, 0xA5]⟩⟩
    ⟨TypeName.CLSID, "CLSID_Agent",
      ⟨0xD45FD31B, 0x5C6E, 0x11D1, [0x9E, 0xC1, 0x00, 0xC0, 0x4F, 0xD7, 0x08, 0x1F]⟩⟩
    (by decide) (by decide)).1
  ⟨v, w, hv, hw, hx (by decide)⟩

end Arcade
